import Mathlib

/-!
Shallow embedding of the conversation response selection system of the
Korean Classroom VR repository, translated from src/js/ai-chat.js,
src/unnamed/part_000 (the WebLLM variant of the chat class) and
src/unnamed/part_001 (the NPC manager), together with theorems about it.
-/

namespace VRClassroom

/-- JS word character class [A-Za-z0-9_], the class behind the word-boundary
assertions in the keyword regexes of generateSmartResponse
(src/js/ai-chat.js:462-477). JS regex word characters are ASCII only. -/
def isWordChar (c : Char) : Bool :=
  (97 ≤ c.toNat && c.toNat ≤ 122) || (65 ≤ c.toNat && c.toNat ≤ 90) ||
  (48 ≤ c.toNat && c.toNat ≤ 57) || c = '_'

/-- Whether the character at position p is a word character (out of range
counts as a non-word position, as at the ends of a JS string). -/
def wordAt (cs : List Char) (p : Nat) : Bool :=
  match cs.get? p with
  | some c => isWordChar c
  | none => false

/-- JS word-boundary assertion at position p: the wordness of the character
before p differs from the wordness of the character at p. -/
def boundaryAt (cs : List Char) (p : Nat) : Bool :=
  (match p with
   | 0 => false
   | q + 1 => wordAt cs q) != wordAt cs p

/-- The keyword kw occurs literally at position i, with word boundaries on
both sides. -/
def kwAt (cs : List Char) (i : Nat) (kw : List Char) : Bool :=
  decide ((cs.drop i).take kw.length = kw) && boundaryAt cs i &&
  boundaryAt cs (i + kw.length)

/-- lowerMsg.match of a regex of the shape boundary-(k1|k2|...)-boundary:
some alternative occurs somewhere in the string with word boundaries. -/
def matchesKw (cs : List Char) (kws : List String) : Bool :=
  (List.range (cs.length + 1)).any fun i => kws.any fun kw => kwAt cs i kw.data

/-- A character the JS regex dot matches: anything but a line terminator. -/
def isDotChar (c : Char) : Bool :=
  !(c = '\n' || c = '\r' || c.toNat = 0x2028 || c.toNat = 0x2029)

/-- After position e there is a question mark reachable over dot-matching
characters (the dot-star-questionmark tail of the question regex). -/
def questionTail (cs : List Char) (e : Nat) : Bool :=
  ((cs.drop e).takeWhile isDotChar).contains '?'

/-- Match of the question regex of src/js/ai-chat.js:464: a bounded keyword
followed by dot-star and a question mark. -/
def matchesQuestionKw (cs : List Char) (kws : List String) : Bool :=
  (List.range (cs.length + 1)).any fun i =>
    kws.any fun kw => kwAt cs i kw.data && questionTail cs (i + kw.data.length)

/-- userMessage.toLowerCase(), character by character. Char.toLower lowers
the ASCII letters; every cased character the keyword tables and guards look
for is ASCII. -/
def jsToLower (s : String) : String := ⟨s.data.map Char.toLower⟩

/-- JS String.trim: strip leading and trailing whitespace (the guards only
ever test the result against the empty string). -/
def jsTrim (s : String) : String :=
  ⟨((s.data.dropWhile Char.isWhitespace).reverse.dropWhile
      Char.isWhitespace).reverse⟩

/-- JS String.startsWith(pre). -/
def strStartsWith (s pre : String) : Bool :=
  decide (s.data.take pre.data.length = pre.data)

/-- First-match association lookup over the own keys of a JS object literal
(object literals have unique keys). A real JS property access additionally
resolves inherited Object.prototype keys (constructor, toString, ...); for
a caller-supplied key that can name one of them the chain is modelled
explicitly where the personality lookup is concerned (jsNpcPersonality
below), while lookups keyed by the fixed literals of this file (the
classifier's ten category strings, the greeting keys) are exact as own-key
lookups. -/
def alook {α : Type} : List (String × α) → String → Option α
  | [], _ => none
  | p :: ps, k => if p.1 = k then some p.2 else alook ps k

/-- Category classification of generateSmartResponse
(src/js/ai-chat.js:459-478): the if-else chain over the keyword regexes, in
source order, on the lower-cased message. -/
def categoryOf (npcId lowerMsg : String) : String :=
  let cs := lowerMsg.data
  if matchesKw cs ["hi", "hello", "hey", "greetings", "안녕"] then "greeting"
  else if matchesQuestionKw cs
      ["what", "how", "why", "when", "where", "who", "can you", "do you", "is it"] then
    "question"
  else if matchesKw cs ["name", "who are you", "introduce", "call you"] then "name"
  else if matchesKw cs ["hobby", "hobbies", "fun", "free time", "like to do"] then "hobby"
  else if matchesKw cs ["how are you", "feeling", "mood", "doing"] then "feeling"
  else if matchesKw cs ["school", "class", "study", "learn", "exam", "test"] then
    (if npcId = "yuna" then "study" else "school")
  else if matchesKw cs ["draw", "art", "paint", "sketch"] && npcId = "sooyeon" then "art"
  else if matchesKw cs ["joke", "funny", "laugh", "humor"] && npcId = "jihoon" then "joke"
  else "default"

/-- One NPC personality entry of the personalities table of
generateSmartResponse (src/js/ai-chat.js:402-455). -/
structure Personality where
  style : String
  traits : List String
  responses : List (String × List String)
deriving DecidableEq, Repr

/-- personalities.minjun (src/js/ai-chat.js:403-415). -/
def minjunP : Personality :=
  { style := "formal and helpful"
    traits := ["eager", "responsible", "polite"]
    responses :=
      [("greeting", ["Hello! How can I assist you, 선생님?",
                     "Good to see you, teacher! What would you like to discuss?"]),
       ("question", ["That's a great question! Let me think... I believe the answer involves careful consideration of all factors.",
                     "I've actually studied this! The key point is to approach it systematically."]),
       ("name", ["I'm Min-jun, 민준 in Korean. I'm the class president this year!",
                 "My name is Min-jun! I try my best to help everyone in class."]),
       ("hobby", ["I enjoy organizing study groups and helping classmates. I also like reading history books!",
                  "Besides studying, I volunteer at the school library. It's important to give back!"]),
       ("feeling", ["I'm doing well, thank you for asking! Ready to learn as always.",
                    "I feel motivated today! There's so much to accomplish."]),
       ("school", ["School is very important to me. Education opens many doors!",
                   "I love our school! The teachers here are wonderful."]),
       ("default", ["Yes, 선생님! I understand.", "I'll do my best to help!",
                    "That's interesting! Tell me more."])] }

/-- personalities.sooyeon (src/js/ai-chat.js:416-428). -/
def sooyeonP : Personality :=
  { style := "shy and artistic"
    traits := ["quiet", "creative", "thoughtful"]
    responses :=
      [("greeting", ["Oh... hi... *looks down*", "H-hello, teacher..."]),
       ("question", ["Um... I think... maybe... *pauses* ...I'm not entirely sure, but perhaps...",
                     "That's... that's a hard question... let me think..."]),
       ("name", ["I'm... Soo-yeon... 수연... *quietly*",
                 "My name is Soo-yeon. Most people don't notice me much..."]),
       ("hobby", ["I... I like to draw... *shows sketchbook nervously* ...would you like to see?",
                  "I spend most of my time drawing. It helps me express things I can't say..."]),
       ("feeling", ["I'm... okay, I guess... *looks out window*",
                    "A little tired today... I was up late drawing..."]),
       ("art", ["*eyes light up* Oh! You want to see my art? I... I drew the sky outside today...",
                "Drawing is... it's like my voice, you know? When I can't speak, I draw."]),
       ("default", ["...okay.", "*nods quietly*", "I see...", "...maybe..."])] }

/-- personalities.jihoon (src/js/ai-chat.js:429-441). -/
def jihoonP : Personality :=
  { style := "funny and casual"
    traits := ["humorous", "friendly", "energetic"]
    responses :=
      [("greeting", ["Yo, 선생님! What's good?",
                     "Hey hey hey! Finally, someone fun to talk to!"]),
       ("question", ["Ooh, tough question! Let me put on my thinking cap... 🤔 Actually, I lost my thinking cap. Haha!",
                     "Hmm, let me consult my brain... it says 'error 404: answer not found'! Just kidding, I think..."]),
       ("name", ["The name's Ji-hoon! 지훈! The one and only class entertainer!",
                 "I'm Ji-hoon! If you ever need a laugh, I'm your guy!"]),
       ("hobby", ["I'm basically a professional meme collector. Also, I play games and make everyone laugh!",
                  "Hobbies? Making people smile! Also sneaking snacks into class... don't tell anyone!"]),
       ("feeling", ["Living the dream, teach! Or at least dreaming about living, haha!",
                    "Feeling awesome! Every day is a chance for new jokes!"]),
       ("joke", ["Why did the student eat his homework? Because his teacher said it was a piece of cake! 🎂",
                 "What do you call a sleeping dinosaur? A dino-snore! Get it?"]),
       ("default", ["Ha! Nice one!", "That's hilarious... wait, was that serious?",
                    "You got it, boss!", "This class just got interesting!"])] }

/-- personalities.yuna (src/js/ai-chat.js:442-454). -/
def yunaP : Personality :=
  { style := "studious and precise"
    traits := ["academic", "competitive", "focused"]
    responses :=
      [("greeting", ["Good day, teacher. I've prepared for today's lesson.",
                     "Hello. I hope we're covering something challenging today."]),
       ("question", ["According to my research, the answer is... *checks notes* ...yes, I have it documented here.",
                     "I've actually written a summary on this topic. The key factors are..."]),
       ("name", ["I'm Yuna, 유나. Currently ranked second in our grade. I'm working on being first.",
                 "My name is Yuna. I take my studies very seriously."]),
       ("hobby", ["Studying, mostly. But I also enjoy solving complex math problems for fun.",
                  "I participate in academic olympiads. Last month I won silver in mathematics."]),
       ("feeling", ["Focused, as always. The 수능 exam is approaching and every moment counts.",
                    "A bit stressed about upcoming exams, but that's normal."]),
       ("study", ["I study at least 4 hours every day after school. Consistency is key.",
                  "My study method involves active recall and spaced repetition. Very efficient."]),
       ("default", ["I should note this down.", "Interesting. Back to studying.",
                    "That's useful information.", "Noted. Now, about the assignment..."])] }

/-- The personalities table (src/js/ai-chat.js:402-455). -/
def personalities : List (String × Personality) :=
  [("minjun", minjunP), ("sooyeon", sooyeonP), ("jihoon", jihoonP), ("yuna", yunaP)]

/-- personalities[npcId] || personalities.minjun (src/js/ai-chat.js:457)
read over own keys: an id that is no own key falls back to the minjun
personality. For an id naming an inherited Object.prototype property the
real JS expression keeps the truthy inherited value instead and the branch
throws; jsNpcPersonality below models that full behavior, and
generateSmartResponseJs ties the two together off the prototype keys. -/
def npcPersonality (npcId : String) : Personality :=
  (alook personalities npcId).getD minjunP

/-- npc.responses[category] || npc.responses.default
(src/js/ai-chat.js:480). A present array is truthy in JS even when empty, so
the || falls through to the default array only on a missing key. -/
def respLookup (p : Personality) (category : String) : List String :=
  match alook p.responses category with
  | some a => a
  | none => (alook p.responses "default").getD []

/-- One entry of a conversation history (role and content fields, as pushed
by sendMessage and generateResponse). -/
structure ChatMsg where
  role : String
  content : String
deriving DecidableEq, Repr

/-- generateSmartResponse (src/js/ai-chat.js:393-482). The 500-1500ms
thinking delay changes no returned value and is dropped. r models the
Math.random() draw: the JS index Math.floor(Math.random() * len) ranges over
exactly the values of r % len when len > 0. The source binds the
conversation history to a local that it never reads again; the hist
parameter mirrors that binding. -/
def generateSmartResponse (npcId userMessage : String) (hist : List ChatMsg)
    (r : Nat) : String :=
  let _history := hist
  let lowerMsg := jsToLower userMessage
  let npc := npcPersonality npcId
  let category := categoryOf npcId lowerMsg
  let responses := respLookup npc category
  responses.getD (r % responses.length) ""

/-- The category generateSmartResponse classifies a call into, with the same
inputs in scope as in the source (the history is bound and unread there). -/
def smartCategory (npcId userMessage : String) (hist : List ChatMsg) : String :=
  let _history := hist
  categoryOf npcId (jsToLower userMessage)

/-- The candidate response array a call of generateSmartResponse draws from,
with the same inputs in scope as in the source. -/
def smartCandidates (npcId userMessage : String) (hist : List ChatMsg) :
    List String :=
  let _history := hist
  respLookup (npcPersonality npcId) (categoryOf npcId (jsToLower userMessage))

/-- Role normalization of generateWithLLM (src/unnamed/part_000:341-346):
a history entry is forwarded as user when its role is user and as assistant
otherwise. -/
def normRole (m : ChatMsg) : ChatMsg :=
  { role := if m.role = "user" then "user" else "assistant", content := m.content }

/-- The message list generateWithLLM (src/unnamed/part_000:331-350) sends to
the engine: the system prompt, then history.slice(-6) (the last six entries,
or all of them when fewer; List.drop with truncating Nat subtraction is
exactly that), then the current user message. -/
def generateWithLLMMessages (systemPrompt : String) (hist : List ChatMsg)
    (userMessage : String) : List ChatMsg :=
  let base : List ChatMsg := [{ role := "system", content := systemPrompt }]
  let recent := hist.drop (hist.length - 6)
  let msgs := base ++ recent.map normRole
  msgs ++ [{ role := "user", content := userMessage }]

/-- A speech synthesis voice as the selection code reads it: its name and
language fields. -/
structure Voice where
  name : String
  lang : String
deriving DecidableEq, Repr

/-- JS String.includes: sub occurs contiguously in s. -/
def strIncludes (s sub : String) : Bool :=
  (List.range (s.data.length + 1)).any fun i =>
    decide ((s.data.drop i).take sub.data.length = sub.data)

/-- femaleNames of speak (src/js/ai-chat.js:519-520): the NPC ids spoken
with a female voice. -/
def femaleNpcIds : List String := ["sooyeon", "yuna"]

/-- isFemale of speak: femaleNames.includes(currentNPC.id). -/
def speakIsFemale (npcId : String) : Bool := femaleNpcIds.contains npcId

/-- Voice selection of speak (src/js/ai-chat.js:517-545): the || chains of
Array.find calls, then the fallback to the first English voice; none means
the utterance voice is left unset. -/
def selectVoice (isFemale : Bool) (voices : List Voice) : Option Voice :=
  let primary : Option Voice :=
    match isFemale with
    | true =>
      ((((voices.find? fun v =>
            strIncludes v.name "Google" && strIncludes (jsToLower v.name) "female").orElse fun _ =>
          voices.find? fun v => strIncludes v.name "Female").orElse fun _ =>
         voices.find? fun v => strIncludes v.name "Samantha").orElse fun _ =>
        voices.find? fun v => strStartsWith v.lang "en" && strIncludes v.name "female")
    | false =>
      ((((voices.find? fun v =>
            strIncludes v.name "Google" && strIncludes (jsToLower v.name) "male").orElse fun _ =>
          voices.find? fun v => strIncludes v.name "Male").orElse fun _ =>
         voices.find? fun v => strIncludes v.name "Daniel").orElse fun _ =>
        voices.find? fun v => strStartsWith v.lang "en" && strIncludes v.name "male")
  primary.orElse fun _ => voices.find? fun v => strStartsWith v.lang "en"

/-- The voice speak assigns for the active NPC npcId (src/js/ai-chat.js:518-545). -/
def speakVoice (npcId : String) (voices : List Voice) : Option Voice :=
  selectVoice (speakIsFemale npcId) voices

/-- The five string-matching fallbacks of the voice selection, as an ordered
priority list of predicates (the last one is the any-English fallback). -/
def voicePreds (isFemale : Bool) : List (Voice → Bool) :=
  match isFemale with
  | true =>
    [fun v => strIncludes v.name "Google" && strIncludes (jsToLower v.name) "female",
     fun v => strIncludes v.name "Female",
     fun v => strIncludes v.name "Samantha",
     fun v => strStartsWith v.lang "en" && strIncludes v.name "female",
     fun v => strStartsWith v.lang "en"]
  | false =>
    [fun v => strIncludes v.name "Google" && strIncludes (jsToLower v.name) "male",
     fun v => strIncludes v.name "Male",
     fun v => strIncludes v.name "Daniel",
     fun v => strStartsWith v.lang "en" && strIncludes v.name "male",
     fun v => strStartsWith v.lang "en"]

/-- Linear scan with fallbacks, as the claim describes the selection: the
first voice satisfying the first predicate that is satisfied at all. -/
def firstMatch {α : Type} (ps : List (α → Bool)) (xs : List α) : Option α :=
  match ps with
  | [] => none
  | p :: rest => (xs.find? p).orElse fun _ => firstMatch rest xs

/-- The mutable state of the AIChat class (src/js/ai-chat.js) that the chat
operations below read and write. histories models this.conversationHistory
(a JS object: an association list with unique keys); chatInput models the
input element value (none when the element is absent); hasUI models the
presence of the chatMessages container (addMessageToUI adds nothing without
it); ui is the list of (type, content) messages in the container; spoken
logs the texts handed to speech synthesis. -/
structure ChatState where
  histories : List (String × List ChatMsg)
  currentNPC : Option String
  isGenerating : Bool
  chatInput : Option String
  hasUI : Bool
  ui : List (String × String)
  spoken : List String
deriving DecidableEq, Repr

/-- addMessageToUI (src/js/ai-chat.js:484-495): appends a message when the
container exists, otherwise does nothing (and returns null). -/
def pushUI (s : ChatState) (type content : String) : ChatState :=
  if s.hasUI then { s with ui := s.ui ++ [(type, content)] } else s

/-- loadingMsgEl.remove() for the loading element appended just before: with
a container the element is the last appended one and dropLast removes it;
without a container addMessageToUI returned null and nothing is removed. -/
def popLoading (s : ChatState) : ChatState :=
  if s.hasUI then { s with ui := s.ui.dropLast } else s

/-- Append a message to the history entry of key k. JS pushes onto
this.conversationHistory[k]; the key exists whenever startConversation has
run for k (pushing on a missing key would throw in JS, so callers only
reach this with the key present). -/
def histUpdate (h : List (String × List ChatMsg)) (k : String) (m : ChatMsg) :
    List (String × List ChatMsg) :=
  h.map fun p => if p.1 = k then (p.1, p.2 ++ [m]) else p

/-- The greetings table of getGreeting (src/js/ai-chat.js:301-309), with the
interpolated fallback for an unknown id. -/
def getGreeting (npcId cfgName : String) : String :=
  (alook
    [("minjun", "Hello, teacher! 안녕하세요! I'm Min-jun, the class president. How can I help you today?"),
     ("sooyeon", "Oh... hello, teacher... *looks up shyly* I was just... drawing something..."),
     ("jihoon", "Hey, 선생님! What's up? Finally someone to talk to! This class was getting boring, haha!"),
     ("yuna", "Good day, teacher. I've completed all my assignments. Did you want to discuss the upcoming exam?")]
    npcId).getD ("Hello, I'm " ++ cfgName ++ ".")

/-- The fallback text of the catch branch of generateResponse
(src/js/ai-chat.js:385). -/
def fallbackText : String :=
  "Sorry, I didn't quite catch that. Could you say it again?"

/-- startConversation (src/js/ai-chat.js:255-299), restricted to the chat
state: initializes the history entry when absent, sets currentNPC, replaces
the message container content with the stored history and, for an empty
history, the greeting (also spoken). The npcManager call and the label,
focus and visibility changes touch no chat state modelled here. -/
def startConversation (npcId cfgName : String) (s : ChatState) : ChatState :=
  let histories :=
    if alook s.histories npcId = none then s.histories ++ [(npcId, [])]
    else s.histories
  let h := (alook histories npcId).getD []
  let s1 := { s with histories := histories, currentNPC := some npcId }
  if s1.hasUI then
    let shown := h.map fun m =>
      ((if m.role = "user" then "user" else "npc"), m.content)
    if h.isEmpty then
      let greeting := getGreeting npcId cfgName
      { s1 with ui := shown ++ [("npc", greeting)],
                spoken := s1.spoken ++ [greeting] }
    else { s1 with ui := shown }
  else s1

/-- endConversation (src/js/ai-chat.js:311-326), restricted to the chat
state: clears currentNPC. Cancelling speech and hiding the UI change no
field modelled here; the npcManager call is modelled on the manager state. -/
def endConversation (s : ChatState) : ChatState :=
  { s with currentNPC := none }

/-- generateResponse (src/js/ai-chat.js:350-391). genFails models whether
the awaited generateSmartResponse call throws (with currentNPC null it
always throws reading this.currentNPC.id, so that case takes the catch
branch too). The loading message is appended and removed again on every
path before any further UI message. r is the Math.random() draw of the
response pick; the reaction draw only touches the manager state. -/
def generateResponse (genFails : Bool) (r : Nat) (userMessage : String)
    (s : ChatState) : ChatState :=
  let s1 := { s with isGenerating := true }
  let s2 := popLoading (pushUI s1 "loading" "Thinking")
  match s2.currentNPC, genFails with
  | some n, false =>
    let response :=
      generateSmartResponse n userMessage ((alook s2.histories n).getD []) r
    let s3 := pushUI s2 "npc" response
    let s4 := { s3 with
                histories := histUpdate s3.histories n
                  { role := "assistant", content := response } }
    { s4 with spoken := s4.spoken ++ [response], isGenerating := false }
  | _, _ =>
    let s3 := pushUI s2 "npc" fallbackText
    { s3 with spoken := s3.spoken ++ [fallbackText], isGenerating := false }

/-- The trimmed message sendMessage reads (src/js/ai-chat.js:331-332): none
when the input element is absent or the trimmed text is empty (both falsy
in the JS guard). -/
def inputMessage (s : ChatState) : Option String :=
  match s.chatInput with
  | none => none
  | some v => if jsTrim v = "" then none else some (jsTrim v)

/-- sendMessage (src/js/ai-chat.js:328-348): the three early returns, then
clear the input, show the user message, push it onto the history and run
generateResponse. -/
def sendMessage (genFails : Bool) (r : Nat) (s : ChatState) : ChatState :=
  match s.currentNPC with
  | none => s
  | some n =>
    if s.isGenerating then s
    else
      match inputMessage s with
      | none => s
      | some message =>
        let s1 := { s with chatInput := s.chatInput.map fun _ => "" }
        let s2 := pushUI s1 "user" message
        let s3 := { s2 with
                    histories := histUpdate s2.histories n
                      { role := "user", content := message } }
        generateResponse genFails r message s3

/-- The registered-NPC state of NPCManager (src/unnamed/part_001:271-313):
for each registered id the isActive flag of its controller, plus activeNPC.
A freshly initialized npc-controller has isActive = false when it is
registered. -/
structure NPCRegState where
  npcs : List (String × Bool)
  activeNPC : Option String
deriving DecidableEq, Repr

/-- The manager state at page load: no registered NPC, activeNPC null. -/
def initNPCState : NPCRegState := { npcs := [], activeNPC := none }

/-- Set the isActive flag of the controller registered under k (setActive
of npc-controller, src/unnamed/part_001:188-199, on the entry of the map). -/
def setFlag (npcs : List (String × Bool)) (k : String) (b : Bool) :
    List (String × Bool) :=
  npcs.map fun p => if p.1 = k then (p.1, b) else p

/-- registerNPC (src/unnamed/part_001:277-279): this.npcs[id] = controller,
where the registered controller starts with isActive = false. -/
def registerNPC (s : NPCRegState) (id : String) : NPCRegState :=
  if (alook s.npcs id).isSome then { s with npcs := setFlag s.npcs id false }
  else { s with npcs := s.npcs ++ [(id, false)] }

/-- setActiveNPC (src/unnamed/part_001:285-297): deactivate the previous
active controller when its id is truthy and registered, store the new id,
then activate its controller when the id is truthy and registered (null is
modelled as none; the empty string is falsy in the JS guards). -/
def setActiveNPC (s : NPCRegState) (id : Option String) : NPCRegState :=
  let npcs1 :=
    match s.activeNPC with
    | some prev =>
      if prev ≠ "" && (alook s.npcs prev).isSome then setFlag s.npcs prev false
      else s.npcs
    | none => s.npcs
  let s1 : NPCRegState := { npcs := npcs1, activeNPC := id }
  match id with
  | some i =>
    if i ≠ "" && (alook npcs1 i).isSome then
      { s1 with npcs := setFlag npcs1 i true }
    else s1
  | none => s1

/-- One registerNPC or setActiveNPC call. -/
inductive NPCOp where
  | regOp (id : String)
  | activeOp (id : Option String)
deriving DecidableEq, Repr

/-- Run one manager call. -/
def applyNPCOp (s : NPCRegState) : NPCOp → NPCRegState
  | .regOp id => registerNPC s id
  | .activeOp id => setActiveNPC s id

/-- Run a sequence of manager calls from the initial state. -/
def runNPCOps (ops : List NPCOp) : NPCRegState :=
  ops.foldl applyNPCOp initNPCState

/-- The number of registered controllers whose isActive flag is set. -/
def activeCount (s : NPCRegState) : Nat :=
  (s.npcs.filter fun p => p.2).length

/-- Histories map h2 extends h1: the list stored under every key in h2 is
the list stored in h1 with zero or more entries appended (an absent key
reads as the empty list). -/
def HistGrows (h1 h2 : List (String × List ChatMsg)) : Prop :=
  ∀ k : String, ∃ t : List ChatMsg,
    (alook h2 k).getD [] = (alook h1 k).getD [] ++ t

/-- The NPC manager invariant: registered ids are unique (JS object keys),
and every registered controller with isActive set is the one activeNPC
names, under a non-empty (truthy) id. -/
def NPCInv (s : NPCRegState) : Prop :=
  (s.npcs.map Prod.fst).Nodup ∧
  ∀ p ∈ s.npcs, p.2 = true → s.activeNPC = some p.1 ∧ p.1 ≠ ""

/-- The property keys every plain JS object literal inherits from
Object.prototype. A property access obj[k] for one of these keys resolves
to the inherited value (a function, or the prototype object itself for
the accessor key), which is truthy, even though the key is not an own key
of the literal. -/
def objectProtoKeys : List String :=
  ["constructor", "hasOwnProperty", "isPrototypeOf", "propertyIsEnumerable",
   "toLocaleString", "toString", "valueOf", "__proto__", "__defineGetter__",
   "__defineSetter__", "__lookupGetter__", "__lookupSetter__"]

/-- Outcome of the JS expression personalities[npcId] || personalities.minjun
with the prototype chain taken into account: either a personality object
(an own entry, or the minjun fallback when the access is undefined), or a
truthy inherited Object.prototype value, on which reading .responses gives
undefined and the subsequent indexing throws a TypeError. -/
inductive JsPersonalityLookup where
  | found (p : Personality)
  | protoThrow
deriving DecidableEq, Repr

/-- personalities[npcId] || personalities.minjun (src/js/ai-chat.js:457)
with JS prototype-chain semantics: an own key yields its personality; an
inherited Object.prototype key yields a truthy non-personality value that
the || keeps, so the branch ends in a throw; only a key that is neither
falls back to minjun. -/
def jsNpcPersonality (npcId : String) : JsPersonalityLookup :=
  match alook personalities npcId with
  | some p => .found p
  | none =>
    if npcId ∈ objectProtoKeys then .protoThrow
    else .found minjunP

/-- generateSmartResponse (src/js/ai-chat.js:393-482) with the prototype
chain of the personalities object modelled: none is the TypeError thrown at
npc.responses[category] when npcId names an inherited Object.prototype
property; in every other case the result of generateSmartResponse is
returned. The category strings the classifier emits, and the keys of the
responses tables, are fixed literals for which the own-key lookup is exact. -/
def generateSmartResponseJs (npcId userMessage : String)
    (hist : List ChatMsg) (r : Nat) : Option String :=
  let _history := hist
  let lowerMsg := jsToLower userMessage
  match jsNpcPersonality npcId with
  | .protoThrow => none
  | .found npc =>
    let category := categoryOf npcId lowerMsg
    let responses := respLookup npc category
    some (responses.getD (r % responses.length) "")

/-! Helper lemmas shared by the claim theorems. -/

/-- Indexing with any random draw r stays inside a non-empty list. -/
theorem getD_mod_mem (l : List String) (r : Nat) (h : 0 < l.length) :
    l.getD (r % l.length) "" ∈ l := by
  have hlt : r % l.length < l.length := Nat.mod_lt _ h
  rw [List.getD_eq_getElem?_getD, List.getElem?_eq_getElem hlt]
  exact List.getElem_mem hlt

/-- A successful association lookup returns a stored pair. -/
theorem alook_mem {α : Type} (l : List (String × α)) (k : String) (v : α)
    (h : alook l k = some v) : (k, v) ∈ l := by
  induction l with
  | nil => simp [alook] at h
  | cons p ps ih =>
    rw [alook] at h
    by_cases hp : p.1 = k
    · rw [if_pos hp] at h
      injection h with h
      subst hp
      subst h
      simp
    · rw [if_neg hp] at h
      exact List.mem_cons_of_mem _ (ih h)

/-- npcPersonality always yields one of the four student personalities. -/
theorem npcPersonality_cases (npcId : String) :
    npcPersonality npcId = minjunP ∨ npcPersonality npcId = sooyeonP ∨
    npcPersonality npcId = jihoonP ∨ npcPersonality npcId = yunaP := by
  by_cases h1 : ("minjun" : String) = npcId
  · subst h1; exact Or.inl rfl
  by_cases h2 : ("sooyeon" : String) = npcId
  · subst h2; exact Or.inr (Or.inl rfl)
  by_cases h3 : ("jihoon" : String) = npcId
  · subst h3; exact Or.inr (Or.inr (Or.inl rfl))
  by_cases h4 : ("yuna" : String) = npcId
  · subst h4; exact Or.inr (Or.inr (Or.inr rfl))
  left
  unfold npcPersonality personalities
  rw [alook, if_neg h1, alook, if_neg h2, alook, if_neg h3, alook, if_neg h4,
      alook]
  rfl

/-- Off the inherited Object.prototype keys, the prototype-chain-faithful
personality lookup agrees with the own-key one: it finds a personality and
never throws. -/
theorem jsNpcPersonality_found (npcId : String)
    (hnp : npcId ∉ objectProtoKeys) :
    jsNpcPersonality npcId = .found (npcPersonality npcId) := by
  unfold jsNpcPersonality npcPersonality
  cases alook personalities npcId with
  | some p => rfl
  | none =>
    rw [if_neg hnp]
    rfl

/-- An id that is none of the four student keys resolves to the minjun
personality in the own-key reading. -/
theorem npcPersonality_unknown (npcId : String)
    (h : npcId ∉ (["minjun", "sooyeon", "jihoon", "yuna"] : List String)) :
    npcPersonality npcId = minjunP := by
  have h1 : ¬(("minjun" : String) = npcId) := fun he => h (by rw [← he]; simp)
  have h2 : ¬(("sooyeon" : String) = npcId) := fun he => h (by rw [← he]; simp)
  have h3 : ¬(("jihoon" : String) = npcId) := fun he => h (by rw [← he]; simp)
  have h4 : ¬(("yuna" : String) = npcId) := fun he => h (by rw [← he]; simp)
  unfold npcPersonality personalities
  rw [alook, if_neg h1, alook, if_neg h2, alook, if_neg h3, alook, if_neg h4,
      alook]
  rfl

/-- Every category lookup, through the default fallback, yields a non-empty
array, for every id and every category string. -/
theorem respLookup_length_pos (npcId category : String) :
    0 < (respLookup (npcPersonality npcId) category).length := by
  have harr : ∀ p : Personality,
      p = minjunP ∨ p = sooyeonP ∨ p = jihoonP ∨ p = yunaP →
      (∀ q ∈ p.responses, 0 < q.2.length) ∧
      0 < ((alook p.responses "default").getD []).length := by
    rintro p (rfl | rfl | rfl | rfl) <;> exact ⟨by decide, by decide⟩
  obtain ⟨hq, hd⟩ := harr _ (npcPersonality_cases npcId)
  unfold respLookup
  cases hx : alook (npcPersonality npcId).responses category with
  | none => exact hd
  | some a => exact hq (category, a) (alook_mem _ _ _ hx)

/-- The value generateSmartResponse returns is a member of the candidate
array its classification selects. -/
theorem smartResponse_mem_candidates (npcId userMessage : String)
    (hist : List ChatMsg) (r : Nat) :
    generateSmartResponse npcId userMessage hist r
      ∈ smartCandidates npcId userMessage hist :=
  getD_mod_mem _ r (respLookup_length_pos npcId _)

/-- A left-nested orElse chain of five options, as the source writes it,
equals the right-nested chain a five-entry priority scan unfolds to. -/
theorem orElse_chain_five {α : Type} (a b c d e : Option α) :
    ((((a.orElse fun _ => b).orElse fun _ => c).orElse fun _ =>
        d).orElse fun _ => e)
      = a.orElse fun _ => b.orElse fun _ => c.orElse fun _ =>
          d.orElse fun _ => e.orElse fun _ => none := by
  cases a <;> cases b <;> cases c <;> cases d <;> cases e <;> rfl

/-- The voice-selection chain of speak is the priority scan over its five
predicates. -/
theorem selectVoice_eq_firstMatch (g : Bool) (voices : List Voice) :
    selectVoice g voices = firstMatch (voicePreds g) voices := by
  cases g
  · exact orElse_chain_five
      (voices.find? fun v =>
        strIncludes v.name "Google" && strIncludes (jsToLower v.name) "male")
      (voices.find? fun v => strIncludes v.name "Male")
      (voices.find? fun v => strIncludes v.name "Daniel")
      (voices.find? fun v =>
        strStartsWith v.lang "en" && strIncludes v.name "male")
      (voices.find? fun v => strStartsWith v.lang "en")
  · exact orElse_chain_five
      (voices.find? fun v =>
        strIncludes v.name "Google" && strIncludes (jsToLower v.name) "female")
      (voices.find? fun v => strIncludes v.name "Female")
      (voices.find? fun v => strIncludes v.name "Samantha")
      (voices.find? fun v =>
        strStartsWith v.lang "en" && strIncludes v.name "female")
      (voices.find? fun v => strStartsWith v.lang "en")

/-- When the whole priority scan fails, each single predicate finds no
voice. -/
theorem firstMatch_none_of {α : Type} (ps : List (α → Bool)) (xs : List α)
    (h : firstMatch ps xs = none) (p : α → Bool) (hp : p ∈ ps) :
    xs.find? p = none := by
  induction ps with
  | nil => cases hp
  | cons q rest ih =>
    rw [firstMatch] at h
    cases hq : xs.find? q with
    | some v =>
      rw [hq] at h
      exact Option.noConfusion (h : some v = none)
    | none =>
      rw [hq] at h
      rcases List.mem_cons.mp hp with rfl | hp2
      · exact hq
      · exact ih (h : firstMatch rest xs = none) hp2

/-- pushUI only changes the ui field. -/
theorem pushUI_eq (s : ChatState) (t c : String) :
    pushUI s t c
      = { s with ui := if s.hasUI then s.ui ++ [(t, c)] else s.ui } := by
  unfold pushUI
  split_ifs <;> rfl

/-- popLoading only changes the ui field. -/
theorem popLoading_eq (s : ChatState) :
    popLoading s
      = { s with ui := if s.hasUI then s.ui.dropLast else s.ui } := by
  unfold popLoading
  split_ifs <;> rfl

/-- Looking up after histUpdate: the stored list of the updated key gains
the new entry, every other key is untouched. -/
theorem alook_histUpdate (h : List (String × List ChatMsg)) (n k : String)
    (m : ChatMsg) :
    alook (histUpdate h n m) k
      = (alook h k).map fun l => if k = n then l ++ [m] else l := by
  induction h with
  | nil => rfl
  | cons p ps ih =>
    unfold histUpdate at ih ⊢
    by_cases hpk : p.1 = k
    · subst hpk
      by_cases hpn : p.1 = n
      · subst hpn
        simp [alook]
      · simp [alook, hpn]
    · by_cases hpn : p.1 = n
      · subst hpn
        simp [alook, hpk, ih]
      · simp [alook, hpk, hpn, ih]

/-- Looking up after appending one fresh pair at the end. -/
theorem alook_append_single {α : Type} (l : List (String × α)) (n : String)
    (v : α) (k : String) :
    alook (l ++ [(n, v)]) k
      = match alook l k with
        | some w => some w
        | none => if n = k then some v else none := by
  induction l with
  | nil => rfl
  | cons p ps ih => by_cases hp : p.1 = k <;> simp [alook, hp, ih]

/-- HistGrows is reflexive. -/
theorem histGrows_refl (h : List (String × List ChatMsg)) : HistGrows h h :=
  fun _ => ⟨[], (List.append_nil _).symm⟩

/-- HistGrows composes. -/
theorem histGrows_trans {a b c : List (String × List ChatMsg)}
    (h1 : HistGrows a b) (h2 : HistGrows b c) : HistGrows a c := by
  intro k
  obtain ⟨t1, e1⟩ := h1 k
  obtain ⟨t2, e2⟩ := h2 k
  exact ⟨t1 ++ t2, by rw [e2, e1, List.append_assoc]⟩

/-- A history push only appends. -/
theorem histGrows_update (h : List (String × List ChatMsg)) (n : String)
    (m : ChatMsg) : HistGrows h (histUpdate h n m) := by
  intro k
  rw [alook_histUpdate]
  cases hk : alook h k with
  | none => exact ⟨[], by simp⟩
  | some l =>
    by_cases hkn : k = n
    · exact ⟨[m], by simp [hkn]⟩
    · exact ⟨[], by simp [hkn]⟩

/-- The histories field startConversation leaves behind. -/
theorem startConversation_histories (npcId cfgName : String)
    (s : ChatState) :
    (startConversation npcId cfgName s).histories
      = if alook s.histories npcId = none then s.histories ++ [(npcId, [])]
        else s.histories := by
  simp only [startConversation]
  split_ifs <;> rfl

/-- Appending one fresh pair only grows the map. -/
theorem histGrows_append_single (h : List (String × List ChatMsg))
    (n : String) : HistGrows h (h ++ [(n, [])]) := by
  intro k
  rw [alook_append_single]
  cases hk : alook h k with
  | some w => exact ⟨[], by simp⟩
  | none =>
    by_cases hn : n = k
    · exact ⟨[], by simp [hn]⟩
    · exact ⟨[], by simp [hn]⟩

/-- generateResponse only ever appends to the histories map. -/
theorem generateResponse_grows (gf : Bool) (r : Nat) (um : String)
    (s : ChatState) :
    HistGrows s.histories (generateResponse gf r um s).histories := by
  simp only [generateResponse, pushUI_eq, popLoading_eq]
  cases hc : s.currentNPC <;> cases gf <;>
    simp only [hc] <;>
    first
      | exact histGrows_refl _
      | exact histGrows_update _ _ _

/-- sendMessage only ever appends to the histories map. -/
theorem sendMessage_grows (gf : Bool) (r : Nat) (s : ChatState) :
    HistGrows s.histories (sendMessage gf r s).histories := by
  cases hc : s.currentNPC with
  | none =>
    simp only [sendMessage, hc]
    exact histGrows_refl _
  | some n =>
    by_cases hg : s.isGenerating = true
    · simp [sendMessage, hc, hg]
      exact histGrows_refl _
    · cases hm : inputMessage s with
      | none =>
        simp [sendMessage, hc, hm, hg]
        exact histGrows_refl _
      | some m =>
        simp only [sendMessage, hc, hm, if_neg hg, pushUI_eq]
        exact histGrows_trans (histGrows_update s.histories n
          { role := "user", content := m }) (generateResponse_grows gf r m _)

/-- A pair of the list makes the lookup of its key succeed. -/
theorem alook_isSome_of_mem {α : Type} (l : List (String × α))
    (p : String × α) (hp : p ∈ l) : (alook l p.1).isSome := by
  induction l with
  | nil => cases hp
  | cons q ps ih =>
    rcases List.mem_cons.mp hp with rfl | hp2
    · simp [alook]
    · by_cases hq : q.1 = p.1 <;> simp [alook, hq, ih hp2]

/-- A failing lookup means the key is not among the stored keys. -/
theorem alook_none_not_mem {α : Type} (l : List (String × α)) (k : String)
    (h : alook l k = none) : k ∉ l.map Prod.fst := by
  induction l with
  | nil => simp
  | cons q ps ih =>
    rw [alook] at h
    by_cases hq : q.1 = k
    · rw [if_pos hq] at h
      cases h
    · rw [if_neg hq] at h
      simp only [List.map_cons, List.mem_cons]
      rintro (rfl | hk)
      · exact hq rfl
      · exact ih h hk

/-- setFlag keeps the stored keys. -/
theorem setFlag_keys (npcs : List (String × Bool)) (k : String) (b : Bool) :
    (setFlag npcs k b).map Prod.fst = npcs.map Prod.fst := by
  induction npcs with
  | nil => rfl
  | cons p ps ih =>
    unfold setFlag at ih ⊢
    by_cases hp : p.1 = k <;> simp [hp, ih]

/-- Membership after setFlag: the entry of the touched key carries the new
flag, every other entry is an original one. -/
theorem mem_setFlag {npcs : List (String × Bool)} {k : String} {b : Bool}
    {p : String × Bool} (hp : p ∈ setFlag npcs k b) :
    (p.1 = k ∧ p.2 = b) ∨ (p.1 ≠ k ∧ p ∈ npcs) := by
  unfold setFlag at hp
  rcases List.mem_map.mp hp with ⟨q, hq, he⟩
  by_cases hqk : q.1 = k
  · rw [if_pos hqk] at he
    rw [← he]
    exact Or.inl ⟨hqk, rfl⟩
  · rw [if_neg hqk] at he
    rw [← he]
    exact Or.inr ⟨hqk, hq⟩

/-- When the deactivation guard of setActiveNPC fails although some
controller is active, the invariant rules that situation out: under the
invariant the old list then holds no active entry at all. -/
theorem no_true_of_skipped (npcs : List (String × Bool)) (prev : String)
    (hact : ∀ p ∈ npcs, p.2 = true → some prev = some p.1 ∧ p.1 ≠ "")
    (hcond : ¬((prev ≠ "" && (alook npcs prev).isSome) = true)) :
    ∀ p ∈ npcs, p.2 = true → False := by
  intro p hp ht
  obtain ⟨heq, hne⟩ := hact p hp ht
  have hkey : p.1 = prev := (Option.some.inj heq).symm
  rw [Bool.and_eq_true] at hcond
  by_cases h0 : prev = ""
  · exact hne (hkey.trans h0)
  · have h2 := alook_isSome_of_mem npcs p hp
    rw [hkey] at h2
    exact hcond ⟨decide_eq_true h0, h2⟩

/-- Deactivating the tracked active controller leaves no active entry. -/
theorem no_true_of_deactivated (npcs : List (String × Bool)) (prev : String)
    (hact : ∀ p ∈ npcs, p.2 = true → some prev = some p.1 ∧ p.1 ≠ "") :
    ∀ p ∈ setFlag npcs prev false, p.2 = true → False := by
  intro p hp ht
  rcases mem_setFlag hp with ⟨_, hb⟩ | ⟨hne, hmem⟩
  · cases hb.symm.trans ht
  · exact hne (Option.some.inj (hact p hmem ht).1).symm

/-- The activation step of setActiveNPC restores the invariant from a list
with unique keys and no active entry. -/
theorem inv_after_activate (npcs1 : List (String × Bool)) (i : String)
    (hnd : (npcs1.map Prod.fst).Nodup)
    (hno : ∀ p ∈ npcs1, p.2 = true → False) :
    NPCInv (if (i ≠ "" && (alook npcs1 i).isSome) = true then
        { npcs := setFlag npcs1 i true, activeNPC := some i }
      else { npcs := npcs1, activeNPC := some i }) := by
  split_ifs with hcond
  · refine ⟨?_, ?_⟩
    · simp only [setFlag_keys]
      exact hnd
    · intro p hp ht
      rcases mem_setFlag hp with ⟨hk, _⟩ | ⟨_, hmem⟩
      · constructor
        · rw [hk]
        · rw [Bool.and_eq_true] at hcond
          rw [hk]
          exact of_decide_eq_true hcond.1
      · exact (hno p hmem ht).elim
  · exact ⟨hnd, fun p hp ht => (hno p hp ht).elim⟩

/-- setActiveNPC preserves the manager invariant. -/
theorem inv_setActiveNPC (s : NPCRegState) (id : Option String)
    (hs : NPCInv s) : NPCInv (setActiveNPC s id) := by
  obtain ⟨npcs, a⟩ := s
  obtain ⟨hnd, hact⟩ := hs
  cases a with
  | none =>
    simp only [setActiveNPC]
    cases id with
    | none =>
      exact ⟨hnd, fun p hp ht => Option.noConfusion (hact p hp ht).1⟩
    | some i =>
      exact inv_after_activate npcs i hnd
        (fun p hp ht => Option.noConfusion (hact p hp ht).1)
  | some prev =>
    simp only [setActiveNPC]
    by_cases hc : (prev ≠ "" && (alook npcs prev).isSome) = true
    · rw [if_pos hc]
      cases id with
      | none =>
        refine ⟨?_, fun p hp ht => (no_true_of_deactivated npcs prev hact p hp ht).elim⟩
        simp only [setFlag_keys]
        exact hnd
      | some i =>
        refine inv_after_activate _ i ?_ (no_true_of_deactivated npcs prev hact)
        simp only [setFlag_keys]
        exact hnd
    · rw [if_neg hc]
      cases id with
      | none =>
        exact ⟨hnd, fun p hp ht => (no_true_of_skipped npcs prev hact hc p hp ht).elim⟩
      | some i =>
        exact inv_after_activate npcs i hnd (no_true_of_skipped npcs prev hact hc)

/-- registerNPC preserves the manager invariant. -/
theorem inv_registerNPC (s : NPCRegState) (nid : String) (hs : NPCInv s) :
    NPCInv (registerNPC s nid) := by
  obtain ⟨hnd, hact⟩ := hs
  unfold registerNPC
  by_cases hex : (alook s.npcs nid).isSome = true
  · rw [if_pos hex]
    refine ⟨?_, ?_⟩
    · simp only [setFlag_keys]
      exact hnd
    · intro p hp ht
      rcases mem_setFlag hp with ⟨_, hb⟩ | ⟨_, hmem⟩
      · cases hb.symm.trans ht
      · exact hact p hmem ht
  · rw [if_neg hex]
    have hnone : alook s.npcs nid = none := by
      cases hx : alook s.npcs nid with
      | none => rfl
      | some w => rw [hx] at hex; exact absurd rfl hex
    refine ⟨?_, ?_⟩
    · rw [List.map_append, List.nodup_append]
      refine ⟨hnd, List.nodup_singleton _, ?_⟩
      intro a ha hb
      simp only [List.map_cons, List.map_nil, List.mem_singleton] at hb
      subst hb
      exact alook_none_not_mem s.npcs a hnone ha
    · intro p hp ht
      rcases List.mem_append.mp hp with hmem | hmem
      · exact hact p hmem ht
      · rw [List.mem_singleton] at hmem
        subst hmem
        cases ht
/-- Every reachable manager state satisfies the invariant. -/
theorem inv_runNPCOps (ops : List NPCOp) : NPCInv (runNPCOps ops) := by
  have hstep : ∀ (s : NPCRegState) (op : NPCOp), NPCInv s →
      NPCInv (applyNPCOp s op) := by
    intro s op hs
    cases op with
    | regOp id => exact inv_registerNPC s id hs
    | activeOp id => exact inv_setActiveNPC s id hs
  have hinit : NPCInv initNPCState := ⟨List.nodup_nil, by intro p hp; cases hp⟩
  unfold runNPCOps
  generalize initNPCState = s0 at hinit ⊢
  induction ops generalizing s0 with
  | nil => exact hinit
  | cons op rest ih => exact ih _ (hstep s0 op hinit)

/-- With unique keys and all active entries naming one id, at most one
entry is active. -/
theorem count_le_one (l : List (String × Bool)) (a : Option String)
    (hnd : (l.map Prod.fst).Nodup)
    (h : ∀ p ∈ l, p.2 = true → a = some p.1) :
    (l.filter fun p => p.2).length ≤ 1 := by
  induction l with
  | nil => simp
  | cons q ps ih =>
    rw [List.map_cons, List.nodup_cons] at hnd
    obtain ⟨hq1, hnd2⟩ := hnd
    by_cases hq : q.2 = true
    · have hps : ps.filter (fun p => p.2) = [] := by
        rw [List.filter_eq_nil_iff]
        intro p hp hpt
        have h1 := h q (List.mem_cons_self q ps) hq
        have h2 := h p (List.mem_cons_of_mem _ hp) hpt
        have hkey : q.1 = p.1 := Option.some.inj (h1.symm.trans h2)
        exact hq1 (hkey ▸ List.mem_map_of_mem Prod.fst hp)
      rw [List.filter_cons, if_pos hq, hps]
      exact Nat.le_refl 1
    · have hrest := ih hnd2
        (fun p hp hpt => h p (List.mem_cons_of_mem _ hp) hpt)
      rw [List.filter_cons, if_neg hq]
      exact hrest

/-! The claim theorems. -/

/-- C1, counterexample: as stated the claim is false, because the response
text is picked by Math.random() from the selected array. With the same user
message "hello", the same NPC minjun and the same (empty) history, two runs
whose random draws differ return two different greeting strings. -/
theorem claim1_randomness_counterexample :
    generateSmartResponse "minjun" "hello" [] 0
      ≠ generateSmartResponse "minjun" "hello" [] 1 := by decide

/-- C1, amended: for every user message, NPC id and conversation history,
generateSmartResponse routes deterministically to a fixed canned-response
array: any two runs draw their response text from that same array, and two
runs whose random draws also agree return the same response text. -/
theorem claim1_routes_to_fixed_candidate_array (npcId userMessage : String)
    (hist : List ChatMsg) (r₁ r₂ : Nat) :
    generateSmartResponse npcId userMessage hist r₁
        ∈ smartCandidates npcId userMessage hist ∧
    generateSmartResponse npcId userMessage hist r₂
        ∈ smartCandidates npcId userMessage hist ∧
    (r₁ = r₂ → generateSmartResponse npcId userMessage hist r₁
        = generateSmartResponse npcId userMessage hist r₂) :=
  ⟨smartResponse_mem_candidates npcId userMessage hist r₁,
   smartResponse_mem_candidates npcId userMessage hist r₂,
   fun h => by rw [h]⟩

/-- C2: for each of the four known students, generateSmartResponse matches
the lower-cased message against the fixed keyword regexes in their listed
priority order (categoryOf), picks that NPC's personality table, and returns
a member of the fixed string array that table holds for the picked category
(with the default array for a category the table lacks); the personality
used is one of the four static tables. -/
theorem claim2_response_from_static_tables (npcId : String)
    (_hk : npcId ∈ ["minjun", "sooyeon", "jihoon", "yuna"])
    (userMessage : String) (hist : List ChatMsg) (r : Nat) :
    generateSmartResponse npcId userMessage hist r
        ∈ respLookup (npcPersonality npcId)
            (categoryOf npcId (jsToLower userMessage)) ∧
    (npcPersonality npcId = minjunP ∨ npcPersonality npcId = sooyeonP ∨
     npcPersonality npcId = jihoonP ∨ npcPersonality npcId = yunaP) :=
  ⟨smartResponse_mem_candidates npcId userMessage hist r,
   npcPersonality_cases npcId⟩

/-- C2, witness: the theorem applied to minjun with the message Hello. -/
theorem claim2_witness :
    generateSmartResponse "minjun" "Hello" [] 0
        ∈ respLookup (npcPersonality "minjun")
            (categoryOf "minjun" (jsToLower "Hello")) ∧
    (npcPersonality "minjun" = minjunP ∨ npcPersonality "minjun" = sooyeonP ∨
     npcPersonality "minjun" = jihoonP ∨ npcPersonality "minjun" = yunaP) :=
  claim2_response_from_static_tables "minjun" (by decide) "Hello" [] 0

/-- C3: smart-mode response selection consumes only the user message and the
NPC id: for any two conversation histories and a fixed message, id and
random draw, the selected category, the candidate response array and the
returned response text all coincide. -/
theorem claim3_history_no_influence (npcId userMessage : String)
    (h₁ h₂ : List ChatMsg) (r : Nat) :
    smartCategory npcId userMessage h₁ = smartCategory npcId userMessage h₂ ∧
    smartCandidates npcId userMessage h₁
        = smartCandidates npcId userMessage h₂ ∧
    generateSmartResponse npcId userMessage h₁ r
        = generateSmartResponse npcId userMessage h₂ r :=
  ⟨rfl, rfl, rfl⟩

/-- C4: generateWithLLM builds its request message list as the NPC's system
prompt first, then the normalized window hist.drop (hist.length - 6) of the
stored history, then the current user message last; that window is a suffix
of the stored history (entries kept in stored order) of length
min 6 (length hist): at most the last six entries, all of them when the
history is shorter. -/
theorem claim4_llm_message_list (systemPrompt userMessage : String)
    (hist : List ChatMsg) :
    generateWithLLMMessages systemPrompt hist userMessage
      = { role := "system", content := systemPrompt } ::
        ((hist.drop (hist.length - 6)).map normRole
          ++ [{ role := "user", content := userMessage }]) ∧
    (hist.drop (hist.length - 6)).length = min 6 hist.length ∧
    List.IsSuffix (hist.drop (hist.length - 6)) hist := by
  refine ⟨rfl, ?_, List.drop_suffix _ _⟩
  rw [List.length_drop]
  omega

/-- C7: for the active NPC's gender, the voice selection of speak is the
linear scan with string-matching fallbacks listed by voicePreds, in order:
Google name plus lower-cased gender word, capitalized gender word, Samantha
for female or Daniel for male, English language plus lower-cased gender
word, then the first voice whose language starts with en; when no predicate
matches any voice the result is none and the utterance voice is left unset,
which in particular happens only if no voice has a language starting with
en. -/
theorem claim7_voice_selection_linear_scan (npcId : String)
    (voices : List Voice) :
    speakVoice npcId voices
        = firstMatch (voicePreds (speakIsFemale npcId)) voices ∧
    (speakVoice npcId voices = none →
      voices.find? (fun v => strStartsWith v.lang "en") = none) := by
  refine ⟨selectVoice_eq_firstMatch (speakIsFemale npcId) voices, fun h => ?_⟩
  refine firstMatch_none_of (voicePreds (speakIsFemale npcId)) voices ?_
    (fun v => strStartsWith v.lang "en") ?_
  · rw [← selectVoice_eq_firstMatch]
    exact h
  · cases speakIsFemale npcId <;> simp [voicePreds]

/-- C8, counterexample: as stated the claim is false, because JS property
access resolves inherited Object.prototype keys. For the unknown npcId
constructor, personalities[npcId] is the truthy inherited constructor
function, the || never falls back to minjun, npc.responses is undefined and
indexing it throws: no response string is returned. -/
theorem claim8_proto_counterexample :
    generateSmartResponseJs "constructor" "hello" [] 0 = none ∧
    jsNpcPersonality "constructor" ≠ .found minjunP := by decide

/-- C8, amended: generateSmartResponse is total over its lookup tables for
every npcId that names no inherited Object.prototype property: the faithful
lookup finds the own personality or the minjun fallback (and never throws),
every category lookup through the default fallback yields a non-empty
string array, a response string is always returned (the faithful run agrees
with the own-key model), and an id outside the four known students falls
back to the minjun personality. -/
theorem claim8_totality_off_prototype_keys
    (npcId category userMessage : String) (hist : List ChatMsg) (r : Nat)
    (hnp : npcId ∉ objectProtoKeys) :
    jsNpcPersonality npcId = .found (npcPersonality npcId) ∧
    0 < (respLookup (npcPersonality npcId) category).length ∧
    generateSmartResponseJs npcId userMessage hist r
      = some (generateSmartResponse npcId userMessage hist r) ∧
    (npcId ∉ (["minjun", "sooyeon", "jihoon", "yuna"] : List String) →
      npcPersonality npcId = minjunP) := by
  refine ⟨jsNpcPersonality_found npcId hnp,
    respLookup_length_pos npcId category, ?_,
    npcPersonality_unknown npcId⟩
  simp only [generateSmartResponseJs, jsNpcPersonality_found npcId hnp]
  rfl

/-- C8, witness: the theorem applied to the ordinary unknown id stranger. -/
theorem claim8_witness :
    jsNpcPersonality "stranger" = .found (npcPersonality "stranger") ∧
    0 < (respLookup (npcPersonality "stranger") "school").length ∧
    generateSmartResponseJs "stranger" "hello" [] 0
      = some (generateSmartResponse "stranger" "hello" [] 0) ∧
    ("stranger" ∉ (["minjun", "sooyeon", "jihoon", "yuna"] : List String) →
      npcPersonality "stranger" = minjunP) :=
  claim8_totality_off_prototype_keys "stranger" "school" "hello" [] 0
    (by decide)

/-- C10: sendMessage is a no-op when no NPC conversation is active, or a
response is being generated, or the input is absent or trims to the empty
string: no conversation history changes and no message is added to the UI
(in fact the whole state is unchanged). -/
theorem claim10_sendmessage_noop (s : ChatState) (genFails : Bool) (r : Nat)
    (h : s.currentNPC = none ∨ s.isGenerating = true ∨
      inputMessage s = none) :
    sendMessage genFails r s = s ∧
    (sendMessage genFails r s).histories = s.histories ∧
    (sendMessage genFails r s).ui = s.ui := by
  have hs : sendMessage genFails r s = s := by
    rcases h with h | h | h
    · simp [sendMessage, h]
    · cases hc : s.currentNPC <;> simp [sendMessage, hc, h]
    · cases hc : s.currentNPC <;> cases hg : s.isGenerating <;>
        simp [sendMessage, hc, hg, h]
  exact ⟨hs, by rw [hs], by rw [hs]⟩

/-- C10, witness: the theorem applied to a state with no active NPC. -/
theorem claim10_witness :
    sendMessage false 0
        { histories := [("minjun", [])], currentNPC := none,
          isGenerating := false, chatInput := some "hello", hasUI := true,
          ui := [], spoken := [] }
      = { histories := [("minjun", [])], currentNPC := none,
          isGenerating := false, chatInput := some "hello", hasUI := true,
          ui := [], spoken := [] } :=
  (claim10_sendmessage_noop _ false 0 (Or.inl rfl)).1

/-- C5: when response generation throws, the single try/catch of
generateResponse recovers with the fixed fallback string: the fallback is
shown in the UI and spoken, no assistant entry is appended to the NPC's
conversation history for the turn (the history gains only the user message
sendMessage already appended), and the generating flag is released. -/
theorem claim5_error_fallback_no_history_entry (s : ChatState)
    (n m : String) (l : List ChatMsg) (r : Nat)
    (hn : s.currentNPC = some n) (hg : s.isGenerating = false)
    (hm : inputMessage s = some m) (hl : alook s.histories n = some l)
    (hui : s.hasUI = true) :
    alook (sendMessage true r s).histories n
        = some (l ++ [{ role := "user", content := m }]) ∧
    (sendMessage true r s).ui
        = s.ui ++ [("user", m), ("npc", fallbackText)] ∧
    (sendMessage true r s).spoken = s.spoken ++ [fallbackText] ∧
    (sendMessage true r s).isGenerating = false := by
  have hsm : sendMessage true r s
      = { s with
          chatInput := s.chatInput.map fun _ => "",
          histories := histUpdate s.histories n
            { role := "user", content := m },
          ui := s.ui ++ [("user", m), ("npc", fallbackText)],
          spoken := s.spoken ++ [fallbackText],
          isGenerating := false } := by
    simp [sendMessage, generateResponse, pushUI_eq, popLoading_eq, hn, hm,
      hg, hui]
  rw [hsm]
  refine ⟨?_, rfl, rfl, rfl⟩
  rw [alook_histUpdate, hl]
  simp

/-- C5, witness: the theorem applied to a one-message conversation with
minjun in which generation fails. -/
theorem claim5_witness :
    alook (sendMessage true 0
        { histories := [("minjun", [])], currentNPC := some "minjun",
          isGenerating := false, chatInput := some "hello", hasUI := true,
          ui := [], spoken := [] }).histories "minjun"
      = some [{ role := "user", content := "hello" }] :=
  (claim5_error_fallback_no_history_entry
    { histories := [("minjun", [])], currentNPC := some "minjun",
      isGenerating := false, chatInput := some "hello", hasUI := true,
      ui := [], spoken := [] }
    "minjun" "hello" [] 0 rfl rfl (by decide) rfl rfl).1

/-- C6: the per-NPC conversation-history map only grows: startConversation,
sendMessage and generateResponse each leave every NPC's stored list a
prefix of the new one (appending zero or more entries), endConversation
leaves the map untouched, and startConversation keeps an existing history
exactly as stored. -/
theorem claim6_history_only_grows (s : ChatState)
    (npcId cfgName um : String) (gf : Bool) (r : Nat) :
    HistGrows s.histories (startConversation npcId cfgName s).histories ∧
    (∀ k l, alook s.histories k = some l →
      alook (startConversation npcId cfgName s).histories k = some l) ∧
    HistGrows s.histories (sendMessage gf r s).histories ∧
    HistGrows s.histories (generateResponse gf r um s).histories ∧
    (endConversation s).histories = s.histories := by
  refine ⟨?_, ?_, sendMessage_grows gf r s, generateResponse_grows gf r um s,
    rfl⟩
  · rw [startConversation_histories]
    split_ifs with h0
    · exact histGrows_append_single s.histories npcId
    · exact histGrows_refl s.histories
  · intro k l hl
    rw [startConversation_histories]
    split_ifs with h0
    · rw [alook_append_single, hl]
    · exact hl

/-- C9: after any sequence of registerNPC and setActiveNPC calls from the
initial manager state, at most one registered controller has isActive set:
setActiveNPC deactivates the tracked active controller before activating
the new id (or none for null). -/
theorem claim9_at_most_one_active (ops : List NPCOp) :
    activeCount (runNPCOps ops) ≤ 1 := by
  obtain ⟨hnd, hact⟩ := inv_runNPCOps ops
  exact count_le_one (runNPCOps ops).npcs (runNPCOps ops).activeNPC hnd
    (fun p hp hpt => (hact p hp hpt).1)

end VRClassroom
